import Mathlib

/-!
Verification development for the mhooge-flask data-access layer
(`src/mhooge_flask/database.py`).

The Python code is shallowly embedded: dictionaries keyed by thread id
become association lists over `Nat` keys, SQLite rows become lists of
`PyScalar` values, Python exceptions become an explicit `PyExc` type and
fallible operations return `Except`/paired results.  Each definition
mirrors a specific function of the source file, noted in its doc string.
-/

namespace MhoogeFlask

/-- Embedding of the scalar Python values stored in database columns
and passed as single query parameters. -/
inductive PyScalar where
  | vnone : PyScalar
  | vbool : Bool → PyScalar
  | vint : Int → PyScalar
  | vstr : String → PyScalar
deriving DecidableEq, Repr

/-- A result row, as returned by `sqlite3` with the default row
factory: a tuple of column values. -/
abbrev Row := List PyScalar

/-- Embedding of a positional query parameter as passed to
`Query.__init__` / `execute_query`: either a scalar or a `list`/`tuple`
of scalars (the shapes that occur in the repository). -/
inductive PyParam where
  | scalar : PyScalar → PyParam
  | plist : List PyScalar → PyParam
  | ptuple : List PyScalar → PyParam
deriving DecidableEq, Repr

/-- Embedding of the Python values a `Query.__call__` can return:
a raw cursor, a list of row tuples (`fetchall`), a single row tuple,
a flat list of scalars (`unpack_all`), or a single scalar. -/
inductive PyVal where
  | cursor : List Row → PyVal
  | rowList : List Row → PyVal
  | tup : Row → PyVal
  | scalList : List PyScalar → PyVal
  | scal : PyScalar → PyVal
deriving DecidableEq, Repr

/-- Python truthiness (`bool(x)`) for the embedded result values:
`None` and empty containers are falsy. -/
def PyVal.truthy : PyVal → Bool
  | .cursor _ => true
  | .rowList rows => !rows.isEmpty
  | .tup xs => !xs.isEmpty
  | .scalList xs => !xs.isEmpty
  | .scal .vnone => false
  | .scal (.vbool b) => b
  | .scal (.vint n) => n != 0
  | .scal (.vstr s) => !s.isEmpty

/-- Tests `x is None` in Python, for the embedded result values. -/
def PyVal.isNone : PyVal → Bool
  | .scal .vnone => true
  | _ => false

/-- The exception kinds relevant to `database.py`.  In the `sqlite3`
hierarchy `OperationalError`, `IntegrityError` and `ProgrammingError`
are all subclasses of `DatabaseError`, while `InterfaceError` and
`ValueError` are not.  `dbException` embeds the DBException class of the module itself, which derives from `OperationalError` and
`ProgrammingError` and is therefore itself a `DatabaseError`. -/
inductive PyExc where
  | dbException : String → PyExc
  | operationalError : String → PyExc
  | integrityError : String → PyExc
  | programmingError : String → PyExc
  | interfaceError : String → PyExc
  | valueError : String → PyExc
deriving DecidableEq, Repr

/-- Whether `isinstance(e, DatabaseError)` holds for the embedded
exception, following the `sqlite3` class hierarchy. -/
def PyExc.isDatabaseError : PyExc → Bool
  | .dbException _ => true
  | .operationalError _ => true
  | .integrityError _ => true
  | .programmingError _ => true
  | .interfaceError _ => false
  | .valueError _ => false

/-- A human-readable tag for an exception, used when `execute_query`
re-raises an engine error as `DBException(exc.args)`. -/
def PyExc.args : PyExc → String
  | .dbException m => m
  | .operationalError m => m
  | .integrityError m => m
  | .programmingError m => m
  | .interfaceError m => m
  | .valueError m => m

/-- The `except (OperationalError, ProgrammingError, DatabaseError)`
clause of `execute_query` / `Query.__call__`: every caught engine error
is re-raised as the uniform `DBException`; anything else propagates
unchanged. -/
def wrapEngineError {α : Type} (r : Except PyExc α) : Except PyExc α :=
  match r with
  | .ok v => .ok v
  | .error e =>
      if e.isDatabaseError then .error (.dbException e.args) else .error e

/-! ### Python dictionaries as association lists

`Database._connections` and `._nested_contexts` are `dict`s keyed by
`threading.get_ident()`.  They are embedded as association lists with
`lookupKey` (`d.get(k)`), `setKey` (`d[k] = v`) and `delKey`
(`del d[k]`). -/

/-- Python dict lookup `d.get(k)`. -/
def lookupKey (m : List (Nat × Nat)) (k : Nat) : Option Nat :=
  match m with
  | [] => none
  | (k2, v) :: rest => if k2 = k then some v else lookupKey rest k

/-- Python dict assignment `d[k] = v`: replace the entry if present,
otherwise append it. -/
def setKey (m : List (Nat × Nat)) (k v : Nat) : List (Nat × Nat) :=
  match m with
  | [] => [(k, v)]
  | (k2, v2) :: rest =>
      if k2 = k then (k2, v) :: rest else (k2, v2) :: setKey rest k v

/-- Python dict deletion `del d[k]` (removes the entry for `k`). -/
def delKey (m : List (Nat × Nat)) (k : Nat) : List (Nat × Nat) :=
  match m with
  | [] => []
  | (k2, v2) :: rest => if k2 = k then rest else (k2, v2) :: delKey rest k

/-! ### The reentrant per-thread connection manager

`SQLiteDatabase.__enter__` / `__exit__` (and the identical
`SQLAlchemyDatabase` pair) maintain `self._connections : dict` and
`self._nested_contexts : dict`, both keyed by `get_ident()`.
The embedding tracks, in addition, an instrumentation of the physical
connections: a counter handing out fresh connection ids
(`sqlite3.connect` / `sessionmaker()` each return a new object), the
number of `get_connection` calls (`openCount`), the number of
`.close()` calls (`closeCount`) and the ids that were closed. -/
structure DBState where
  connections : List (Nat × Nat)
  nestedContexts : List (Nat × Nat)
  nextConnId : Nat
  openCount : Nat
  closeCount : Nat
  closedConns : List Nat
deriving DecidableEq, Repr

/-- Embeds `SQLiteDatabase.__enter__` (database.py lines 501-512), run by
thread `tid`: increment the nesting counter, then create and cache a
connection only if the thread has none; return the connection id of
the thread. -/
def enterScope (tid : Nat) (s : DBState) : DBState × Nat :=
  let d := (lookupKey s.nestedContexts tid).getD 0 + 1
  let s1 := { s with nestedContexts := setKey s.nestedContexts tid d }
  match lookupKey s1.connections tid with
  | some c => (s1, c)
  | none =>
      let c := s1.nextConnId
      ({ s1 with
          connections := setKey s1.connections tid c
          nextConnId := c + 1
          openCount := s1.openCount + 1 }, c)

/-- Embeds `SQLiteDatabase.__exit__` (database.py lines 514-523): decrement the
nesting counter (`dict.get` default 1); at zero, close the connection
of the thread and delete both dict entries.  Returns `none` when the close
would raise a `KeyError` (no cached connection). -/
def exitScope (tid : Nat) (s : DBState) : Option DBState :=
  let d := (lookupKey s.nestedContexts tid).getD 1 - 1
  let s1 := { s with nestedContexts := setKey s.nestedContexts tid d }
  if d = 0 then
    match lookupKey s1.connections tid with
    | none => none
    | some c =>
        some { s1 with
                closeCount := s1.closeCount + 1
                closedConns := c :: s1.closedConns
                connections := delKey s1.connections tid
                nestedContexts := delKey s1.nestedContexts tid }
  else some s1

/-- Variant of `__enter__` with a connection provider that may raise
(`sqlite3.connect` failing).  The counter increment
`self._nested_contexts[thread_id] = nested_contexts` has already
executed when `self.get_connection()` is called, so a provider error
(result `none`) propagates out of a state whose counter is already
incremented. -/
def enterScopeFallible (tid : Nat) (openFails : Bool) (s : DBState) :
    DBState × Option Nat :=
  let d := (lookupKey s.nestedContexts tid).getD 0 + 1
  let s1 := { s with nestedContexts := setKey s.nestedContexts tid d }
  match lookupKey s1.connections tid with
  | some c => (s1, some c)
  | none =>
      if openFails then (s1, none)
      else
        let c := s1.nextConnId
        ({ s1 with
            connections := setKey s1.connections tid c
            nextConnId := c + 1
            openCount := s1.openCount + 1 }, some c)

/-- Runs `n` successive nested `__enter__` calls by thread `tid`; also
returns the list of connection ids handed back, in order. -/
def enterN : Nat → Nat → DBState → DBState × List Nat
  | 0, _, s => (s, [])
  | n + 1, tid, s =>
      let p := enterScope tid s
      let q := enterN n tid p.1
      (q.1, p.2 :: q.2)

/-- Runs `n` successive `__exit__` calls by thread `tid`. -/
def exitN : Nat → Nat → DBState → Option DBState
  | 0, _, s => some s
  | n + 1, tid, s =>
      match exitScope tid s with
      | none => none
      | some s1 => exitN n tid s1

/-- The initial bookkeeping state of a freshly constructed `Database`:
`self._connections = {}` and `self._nested_contexts = {}`. -/
def initialDBState : DBState :=
  { connections := [], nestedContexts := [], nextConnId := 0,
    openCount := 0, closeCount := 0, closedConns := [] }

/-! ### The on-disk auth store

The two tables the facade methods touch,
`users(id PRIMARY KEY, name UNIQUE NOT NULL, password NOT NULL)` and
`auth_tokens(holder_id NOT NULL, token PRIMARY KEY, expires NOT NULL)`
(`create_user_tables`, and the mapped `User` / `AuthToken` models). -/
structure UserRow where
  id : String
  name : String
  password : String
deriving DecidableEq, Repr

structure TokenRow where
  holder_id : String
  token : String
  expires : Int
deriving DecidableEq, Repr

structure Store where
  users : List UserRow
  auth_tokens : List TokenRow
deriving DecidableEq, Repr

/-- The join both backends issue for a token lookup:
`SELECT at.holder_id, u.name, at.expires FROM auth_tokens AS at INNER
JOIN users AS u ON u.id = at.holder_id WHERE at.token = ?`, fetching
the first row.  (The mapped backend issues the same join via
`select(AuthToken.holder_id, User.name, AuthToken.expires).join(User)
.filter(AuthToken.token == auth_token)`.) -/
def tokenJoinLookup (store : Store) (tok : String) : Option (String × String × Int) :=
  match store.auth_tokens.find? (fun r => r.token == tok) with
  | none => none
  | some tr =>
      match store.users.find? (fun u => u.id == tr.holder_id) with
      | none => none
      | some u => some (tr.holder_id, u.name, tr.expires)

/-- Embeds `DELETE FROM auth_tokens WHERE token = ?` (and the mapped
`delete(AuthToken).where(AuthToken.token == auth_token)`). -/
def deleteToken (store : Store) (tok : String) : Store :=
  { store with auth_tokens := store.auth_tokens.filter (fun r => !(r.token == tok)) }

/-- Embeds `SQLiteDatabase.get_user_id_from_token` (database.py lines
549-572): fetch the joined row; `None` if absent; if `result[2] <
time()` delete the token row and return `None`; otherwise `return
result` — the *whole fetched row* `(holder_id, name, expires)`.
Returns the result value together with the store after side effects. -/
def get_user_id_from_token_sqlite (store : Store) (tok : String) (now : Int) :
    Option Row × Store :=
  match tokenJoinLookup store tok with
  | none => (none, store)
  | some (h, n, e) =>
      if e < now then (none, deleteToken store tok)
      else (some [.vstr h, .vstr n, .vint e], store)

/-- Embeds `SQLAlchemyDatabase.get_user_id_from_token` (database.py lines
382-397): same join and expiry check (`result.t[2] < time()`), but
returns `(result.t[0], result.t[1])` — only the holder id and name. -/
def get_user_id_from_token_alchemy (store : Store) (tok : String) (now : Int) :
    Option Row × Store :=
  match tokenJoinLookup store tok with
  | none => (none, store)
  | some (h, n, e) =>
      if e < now then (none, deleteToken store tok)
      else (some [.vstr h, .vstr n], store)

/-- Embeds `SQLiteDatabase.password_matches` (database.py lines 534-541):
`SELECT password FROM users WHERE name=?`, `fetchone`; `False` when no
row; otherwise compare the stored hash with the supplied one.  (The
mapped variant selects `User.password` with `scalar_one` and returns
`False` on any lookup failure, then compares — same observable
behavior on stores with unique names.) -/
def password_matches (store : Store) (username password : String) : Bool :=
  match store.users.find? (fun u => u.name == username) with
  | none => false
  | some u => u.password == password

/-- The engine-level outcome of
`INSERT INTO users(id, name, password) VALUES (?, ?, ?)`:
`OperationalError` when the `users` table is missing, an
`IntegrityError` on a uniqueness violation of `name` or `id`, success
otherwise. -/
def insertUserEngine (store : Store) (usersTableExists : Bool) (u : UserRow) :
    Except PyExc Store :=
  if !usersTableExists then
    .error (.operationalError ("no such table: users"))
  else if store.users.any (fun x => x.name == u.name) then
    .error (.integrityError ("UNIQUE constraint failed: users.name"))
  else if store.users.any (fun x => x.id == u.id) then
    .error (.integrityError ("UNIQUE constraint failed: users.id"))
  else .ok { store with users := store.users ++ [u] }

/-- The control flow of `SQLiteDatabase.create_user` (database.py lines
525-532) over an arbitrary engine outcome `r`: the insert runs through
`execute_query`, whose `except` clause re-raises engine database
errors as `DBException` (`wrapEngineError`); `create_user` then catches
`except DatabaseError: return False` and otherwise returns `True`.
Since `DBException` derives from `OperationalError` it is itself a
`DatabaseError` and is always caught. -/
def create_user_from_engine (store : Store) (r : Except PyExc Store) :
    Except PyExc (Bool × Store) :=
  match wrapEngineError r with
  | .ok st => .ok (true, st)
  | .error e => if e.isDatabaseError then .ok (false, store) else .error e

/-- Embeds `SQLiteDatabase.create_user` against the modeled insert engine. -/
def create_user (store : Store) (usersTableExists : Bool)
    (uid uname upass : String) : Except PyExc (Bool × Store) :=
  create_user_from_engine store (insertUserEngine store usersTableExists ⟨uid, uname, upass⟩)

/-- Extracts `row[0]`, the first column of a result row (rows produced by a
`SELECT` are never empty). -/
def firstCol (r : Row) : PyScalar := r.headD .vnone

/-- The `format_func` argument of `Query.__init__`: `None`, a callable,
or a selector string. -/
inductive FormatFunc where
  | noneF : FormatFunc
  | callableF : (List Row → PyVal) → FormatFunc
  | selector : String → FormatFunc

/-- The result-shaping block of `Query.__call__` (database.py lines
66-85), applied to the rows of the executed cursor.  The single Python
empty list literal `[]` is rendered as `.rowList []` in the `"all"` branch
and `.scalList []` in the `"unpack_all"` branch.  The trailing
`ValueError` is not in the `except (OperationalError,
ProgrammingError, DatabaseError)` tuple, so it propagates unwrapped. -/
def runFormat (ff : FormatFunc) (default : PyVal) (rows : List Row)
    (raw : Bool) : Except PyExc PyVal :=
  if raw then .ok (.cursor rows) else
  match ff with
  | .noneF => .ok (.cursor rows)
  | .callableF f => .ok (f rows)
  | .selector sel =>
      if sel = "all" then
        let fetched := PyVal.rowList rows
        .ok (if fetched.truthy then fetched
             else if default.isNone then .rowList [] else default)
      else if sel = "one" then
        let fetched : PyVal := match rows with
          | [] => .scal .vnone
          | r :: _ => .tup r
        .ok (if fetched.truthy then fetched else default)
      else if sel = "unpack_all" then
        let unpacked := PyVal.scalList (rows.map firstCol)
        .ok (if unpacked.truthy then unpacked
             else if default.isNone then .scalList [] else default)
      else if sel = "unpack_one" then
        match rows with
        | [] => .ok default
        | r :: _ => .ok (.scal (firstCol r))
      else .error (.valueError ("Formatting function for query is invalid."))

/-- The parameter coercion of `Query.__init__` / `execute_query`:
`if type(param) in (list, tuple): collected_params.append(tuple(param))`. -/
def coerceParam : PyParam → PyParam
  | .plist xs => .ptuple xs
  | .ptuple xs => .ptuple xs
  | .scalar v => .scalar v

/-- Tests `isinstance(param, tuple)` on a collected parameter. -/
def isTupleParam : PyParam → Bool
  | .ptuple _ => true
  | _ => false

/-- The `collected_params` list built by `Query.__init__` and
`execute_query`. -/
def collectParams (params : List PyParam) : List PyParam :=
  params.map coerceParam

/-- The fields of a constructed `Query` relevant to execution.  When
`execute_many` is false the Python code re-wraps `collected_params` in
`tuple(...)`; the elements are unchanged, so both cases carry the same
element list here, discriminated by the flag. -/
structure QueryObj where
  query : String
  params : List PyParam
  execute_many : Bool
deriving DecidableEq, Repr

/-- Embeds `Query.__init__` (database.py lines 27-45). -/
def mkQuery (q : String) (params : List PyParam) : QueryObj :=
  let cp := collectParams params
  let em := !cp.isEmpty && cp.all isTupleParam
  { query := q, params := cp, execute_many := em }

/-- How many engine executions `Query.__call__` / `execute_query`
issues: `executemany` runs once per parameter row, `execute` runs
once with the flat parameter tuple. -/
def executionCount (qo : QueryObj) : Nat :=
  if qo.execute_many then qo.params.length else 1

/-- Embeds `SQLiteDatabase.execute_query` (database.py lines 462-499), with
the engine behavior abstracted as `engine store query params
execute_many`.  If the calling thread has no cached connection it
raises `DBException("No database connection is active.")` before
touching anything; otherwise it collects parameters exactly as
`Query.__init__` does, executes, and re-raises engine database errors
as `DBException`.  The result carries the connection bookkeeping state
and the store alongside, to make "state unchanged" expressible. -/
def execute_query (tid : Nat) (s : DBState) (store : Store)
    (q : String) (params : List PyParam)
    (engine : Store → String → List PyParam → Bool → Except PyExc (Store × List Row)) :
    Except PyExc (List Row) × DBState × Store :=
  match lookupKey s.connections tid with
  | none => (.error (.dbException ("No database connection is active.")), s, store)
  | some _ =>
      let cp := collectParams params
      let em := !cp.isEmpty && cp.all isTupleParam
      match wrapEngineError (engine store q cp em) with
      | .ok p => (.ok p.2, s, p.1)
      | .error e => (.error e, s, store)

/-- An empty store (no users, no tokens). -/
def emptyStore : Store := { users := [], auth_tokens := [] }

/-- A store holding one user `alice` and one auth token for her with
expiry timestamp `9999`. -/
def sampleStore : Store :=
  { users := [{ id := "id1", name := "alice", password := "h1" }],
    auth_tokens := [{ holder_id := "id1", token := "tok1", expires := 9999 }] }

/-- A store like `sampleStore` but whose token already expired at
timestamp `50`. -/
def expiredStore : Store :=
  { users := [{ id := "id1", name := "alice", password := "h1" }],
    auth_tokens := [{ holder_id := "id1", token := "tok1", expires := 50 }] }

theorem lookupKey_setKey_same (m : List (Nat × Nat)) (k v : Nat) :
    lookupKey (setKey m k v) k = some v := by
  induction m with
  | nil => simp [setKey, lookupKey]
  | cons hd tl ih =>
      obtain ⟨k2, v2⟩ := hd
      by_cases h : k2 = k
      · simp [setKey, lookupKey, h]
      · simp [setKey, lookupKey, h, ih]

theorem setKey_setKey_same (m : List (Nat × Nat)) (k a b : Nat) :
    setKey (setKey m k a) k b = setKey m k b := by
  induction m with
  | nil => simp [setKey]
  | cons hd tl ih =>
      obtain ⟨k2, v2⟩ := hd
      by_cases h : k2 = k
      · simp [setKey, h]
      · simp [setKey, h, ih]

theorem setKey_lookupKey_self (m : List (Nat × Nat)) (k v : Nat)
    (h : lookupKey m k = some v) : setKey m k v = m := by
  induction m with
  | nil => simp [lookupKey] at h
  | cons hd tl ih =>
      obtain ⟨k2, v2⟩ := hd
      by_cases hk : k2 = k
      · simp [lookupKey, hk] at h
        simp [setKey, hk, h]
      · simp [lookupKey, hk] at h
        simp [setKey, hk, ih h]

theorem delKey_setKey_absent (m : List (Nat × Nat)) (k v : Nat)
    (h : lookupKey m k = none) : delKey (setKey m k v) k = m := by
  induction m with
  | nil => simp [setKey, delKey]
  | cons hd tl ih =>
      obtain ⟨k2, v2⟩ := hd
      by_cases hk : k2 = k
      · simp [lookupKey, hk] at h
      · simp [lookupKey, hk] at h
        simp [setKey, delKey, hk, ih h]

theorem delKey_setKey_same (m : List (Nat × Nat)) (k v : Nat) :
    delKey (setKey m k v) k = delKey m k := by
  induction m with
  | nil => simp [setKey, delKey]
  | cons hd tl ih =>
      obtain ⟨k2, v2⟩ := hd
      by_cases hk : k2 = k
      · simp [setKey, delKey, hk]
      · simp [setKey, delKey, hk, ih]

theorem delKey_absent (m : List (Nat × Nat)) (k : Nat)
    (h : lookupKey m k = none) : delKey m k = m := by
  induction m with
  | nil => simp [delKey]
  | cons hd tl ih =>
      obtain ⟨k2, v2⟩ := hd
      by_cases hk : k2 = k
      · simp [lookupKey, hk] at h
      · simp [lookupKey, hk] at h
        simp [delKey, hk, ih h]

theorem enterScope_absent (tid : Nat) (s : DBState)
    (hc : lookupKey s.connections tid = none) :
    enterScope tid s =
      ({ connections := setKey s.connections tid s.nextConnId,
         nestedContexts := setKey s.nestedContexts tid ((lookupKey s.nestedContexts tid).getD 0 + 1),
         nextConnId := s.nextConnId + 1,
         openCount := s.openCount + 1,
         closeCount := s.closeCount,
         closedConns := s.closedConns }, s.nextConnId) := by
  simp [enterScope, hc]

theorem enterScope_present (tid : Nat) (s : DBState) (c : Nat)
    (hc : lookupKey s.connections tid = some c) :
    enterScope tid s =
      ({ s with nestedContexts := setKey s.nestedContexts tid ((lookupKey s.nestedContexts tid).getD 0 + 1) }, c) := by
  simp [enterScope, hc]

theorem exitScope_noclose (tid : Nat) (s : DBState) (d : Nat)
    (hd : lookupKey s.nestedContexts tid = some d) (h1 : d - 1 ≠ 0) :
    exitScope tid s =
      some { s with nestedContexts := setKey s.nestedContexts tid (d - 1) } := by
  simp [exitScope, hd, h1]

theorem exitScope_close (tid : Nat) (s : DBState) (c : Nat)
    (hd : lookupKey s.nestedContexts tid = some 1)
    (hc : lookupKey s.connections tid = some c) :
    exitScope tid s =
      some { s with
              connections := delKey s.connections tid,
              nestedContexts := delKey s.nestedContexts tid,
              closeCount := s.closeCount + 1,
              closedConns := c :: s.closedConns } := by
  simp [exitScope, hd, hc, delKey_setKey_same]

theorem enterN_present (tid : Nat) (n : Nat) :
    ∀ (s : DBState) (c d : Nat),
      lookupKey s.connections tid = some c →
      lookupKey s.nestedContexts tid = some d →
      enterN n tid s =
        ({ s with nestedContexts := setKey s.nestedContexts tid (d + n) },
         List.replicate n c) := by
  induction n with
  | zero =>
      intro s c d hc hd
      simp [enterN, setKey_lookupKey_self _ _ _ hd]
  | succ n ih =>
      intro s c d hc hd
      have hstep := enterScope_present tid s c hc
      rw [hd] at hstep
      simp only [enterN, hstep]
      have hc1 : lookupKey ({ s with nestedContexts := setKey s.nestedContexts tid ((some d).getD 0 + 1) } : DBState).connections tid = some c := hc
      have hd1 : lookupKey ({ s with nestedContexts := setKey s.nestedContexts tid ((some d).getD 0 + 1) } : DBState).nestedContexts tid = some (d + 1) := by
        simp [lookupKey_setKey_same]
      rw [ih _ c (d + 1) hc1 hd1]
      simp only [setKey_setKey_same, Option.getD_some, List.replicate_succ]
      have harith : d + 1 + n = d + (n + 1) := by omega
      rw [harith]

theorem exitN_partial (tid : Nat) (k : Nat) :
    ∀ (s : DBState) (d : Nat),
      lookupKey s.nestedContexts tid = some d →
      k < d →
      exitN k tid s =
        some { s with nestedContexts := setKey s.nestedContexts tid (d - k) } := by
  induction k with
  | zero =>
      intro s d hd _
      simp [exitN, setKey_lookupKey_self _ _ _ hd]
  | succ k ih =>
      intro s d hd hk
      have hd1 : d - 1 ≠ 0 := by omega
      simp only [exitN, exitScope_noclose tid s d hd hd1]
      have hd2 : lookupKey ({ s with nestedContexts := setKey s.nestedContexts tid (d - 1) } : DBState).nestedContexts tid = some (d - 1) := by
        simp [lookupKey_setKey_same]
      rw [ih _ (d - 1) hd2 (by omega)]
      simp only [setKey_setKey_same]
      have harith : d - 1 - k = d - (k + 1) := by omega
      rw [harith]

theorem exitN_close (tid : Nat) (e : Nat) :
    ∀ (s : DBState) (c : Nat),
      lookupKey s.nestedContexts tid = some (e + 1) →
      lookupKey s.connections tid = some c →
      exitN (e + 1) tid s =
        some { s with
                connections := delKey s.connections tid,
                nestedContexts := delKey s.nestedContexts tid,
                closeCount := s.closeCount + 1,
                closedConns := c :: s.closedConns } := by
  induction e with
  | zero =>
      intro s c hd hc
      simp [exitN, exitScope_close tid s c hd hc]
  | succ e ih =>
      intro s c hd hc
      have hne : (e + 1 + 1) - 1 ≠ 0 := by omega
      have hstep := exitScope_noclose tid s (e + 1 + 1) hd hne
      rw [exitN, hstep]
      have hd2 : lookupKey ({ s with nestedContexts := setKey s.nestedContexts tid (e + 1 + 1 - 1) } : DBState).nestedContexts tid = some (e + 1) := by
        simp [lookupKey_setKey_same]
      simp only [ih _ c hd2 hc]
      simp [delKey_setKey_same]

/-- C1: for every execution context `tid` with no cached connection and
no depth entry, and every `N ≥ 1`, a run of `N` nested `__enter__`
calls followed by `N` matching `__exit__` calls opens exactly one
physical connection (on the first entry), hands the same connection id
back from every nested entry, keeps it cached and unclosed through the
first `N - 1` exits, closes it exactly once on the `N`-th exit, and at
that point removes both the connection entry and the depth-counter
entry for `tid`, restoring both maps exactly. -/
theorem reentrant_scope_lifecycle (N : Nat) (hN : 1 ≤ N) (s0 : DBState) (tid : Nat)
    (hc : lookupKey s0.connections tid = none)
    (hd : lookupKey s0.nestedContexts tid = none) :
    (enterN N tid s0).2 = List.replicate N s0.nextConnId ∧
    (enterN N tid s0).1.openCount = s0.openCount + 1 ∧
    (enterN N tid s0).1.closeCount = s0.closeCount ∧
    lookupKey (enterN N tid s0).1.connections tid = some s0.nextConnId ∧
    lookupKey (enterN N tid s0).1.nestedContexts tid = some N ∧
    (∀ k, k < N → ∃ sk, exitN k tid (enterN N tid s0).1 = some sk ∧
        sk.closeCount = s0.closeCount ∧
        lookupKey sk.connections tid = some s0.nextConnId) ∧
    ∃ s2, exitN N tid (enterN N tid s0).1 = some s2 ∧
        s2.openCount = s0.openCount + 1 ∧
        s2.closeCount = s0.closeCount + 1 ∧
        s2.closedConns = s0.nextConnId :: s0.closedConns ∧
        s2.connections = s0.connections ∧
        s2.nestedContexts = s0.nestedContexts := by
  obtain ⟨K, rfl⟩ : ∃ K, N = K + 1 := ⟨N - 1, by omega⟩
  have hstep := enterScope_absent tid s0 hc
  rw [hd] at hstep
  norm_num at hstep
  have h1 : enterN (K + 1) tid s0 =
      ({ connections := setKey s0.connections tid s0.nextConnId,
         nestedContexts := setKey s0.nestedContexts tid (K + 1),
         nextConnId := s0.nextConnId + 1,
         openCount := s0.openCount + 1,
         closeCount := s0.closeCount,
         closedConns := s0.closedConns }, List.replicate (K + 1) s0.nextConnId) := by
    rw [enterN, hstep]
    have hcA : lookupKey (setKey s0.connections tid s0.nextConnId) tid = some s0.nextConnId :=
      lookupKey_setKey_same _ _ _
    have hdA : lookupKey (setKey s0.nestedContexts tid 1) tid = some 1 :=
      lookupKey_setKey_same _ _ _
    rw [enterN_present tid K _ s0.nextConnId 1 hcA hdA]
    simp only [setKey_setKey_same, List.replicate_succ]
    rw [Nat.add_comm 1 K]
  rw [h1]
  have hcS : lookupKey (setKey s0.connections tid s0.nextConnId) tid = some s0.nextConnId :=
    lookupKey_setKey_same _ _ _
  have hdS : lookupKey (setKey s0.nestedContexts tid (K + 1)) tid = some (K + 1) :=
    lookupKey_setKey_same _ _ _
  refine ⟨rfl, rfl, rfl, hcS, hdS, ?_, ?_⟩
  · intro k hk
    refine ⟨_, exitN_partial tid k _ (K + 1) hdS hk, rfl, hcS⟩
  · refine ⟨_, exitN_close tid K _ s0.nextConnId hdS hcS, rfl, rfl, rfl, ?_, ?_⟩
    · exact delKey_setKey_absent _ _ _ hc
    · exact delKey_setKey_absent _ _ _ hd

/-- Concrete instantiation of `reentrant_scope_lifecycle`:
three nested entries and three exits by thread `7` on a fresh
`Database`. -/
theorem reentrant_scope_lifecycle_witness :
    1 ≤ 3 ∧ lookupKey initialDBState.connections 7 = none ∧
    lookupKey initialDBState.nestedContexts 7 = none ∧
    ((enterN 3 7 initialDBState).2 = List.replicate 3 initialDBState.nextConnId ∧
     (enterN 3 7 initialDBState).1.openCount = initialDBState.openCount + 1 ∧
     (enterN 3 7 initialDBState).1.closeCount = initialDBState.closeCount ∧
     lookupKey (enterN 3 7 initialDBState).1.connections 7 = some initialDBState.nextConnId ∧
     lookupKey (enterN 3 7 initialDBState).1.nestedContexts 7 = some 3 ∧
     (∀ k, k < 3 → ∃ sk, exitN k 7 (enterN 3 7 initialDBState).1 = some sk ∧
         sk.closeCount = initialDBState.closeCount ∧
         lookupKey sk.connections 7 = some initialDBState.nextConnId) ∧
     ∃ s2, exitN 3 7 (enterN 3 7 initialDBState).1 = some s2 ∧
         s2.openCount = initialDBState.openCount + 1 ∧
         s2.closeCount = initialDBState.closeCount + 1 ∧
         s2.closedConns = initialDBState.nextConnId :: initialDBState.closedConns ∧
         s2.connections = initialDBState.connections ∧
         s2.nestedContexts = initialDBState.nestedContexts) :=
  ⟨by decide, by decide, by decide,
   reentrant_scope_lifecycle 3 (by decide) initialDBState 7 (by decide) (by decide)⟩

/-- When the provider succeeds, the fallible embedding of `__enter__`
agrees with `enterScope`. -/
theorem enterScopeFallible_ok (tid : Nat) (s : DBState) :
    enterScopeFallible tid false s =
      ((enterScope tid s).1, some (enterScope tid s).2) := by
  unfold enterScopeFallible enterScope
  cases h : lookupKey s.connections tid <;> simp [h]

/-- C2 counterexample: on a fresh `Database`, if `get_connection`
raises during the first `__enter__` of thread `7`, the error propagates
(`none` result) but the depth counter for thread `7` has already been
set to `1` while no connection entry exists — the depth-counter state
is not left unchanged, refuting the claimed atomicity. -/
theorem enter_open_failure_not_atomic_counterexample :
    (enterScopeFallible 7 true initialDBState).2 = none ∧
    lookupKey (enterScopeFallible 7 true initialDBState).1.nestedContexts 7 = some 1 ∧
    lookupKey (enterScopeFallible 7 true initialDBState).1.connections 7 = none ∧
    (enterScopeFallible 7 true initialDBState).1.nestedContexts ≠
      initialDBState.nestedContexts := by
  decide

/-- C2 amended: if the open operation of the Connection Provider fails
during scope entry for a context with no cached connection, the enter
operation propagates the error and opens no connection, but the depth
counter for that context has already been incremented (the increment
`self._nested_contexts[thread_id] = nested_contexts` precedes the
`get_connection()` call), so a depth entry is left behind for a context
that has no connection entry. -/
theorem enter_open_failure_leaves_counter (tid : Nat) (s : DBState)
    (hc : lookupKey s.connections tid = none) :
    (enterScopeFallible tid true s).2 = none ∧
    (enterScopeFallible tid true s).1.openCount = s.openCount ∧
    lookupKey (enterScopeFallible tid true s).1.nestedContexts tid =
      some ((lookupKey s.nestedContexts tid).getD 0 + 1) ∧
    lookupKey (enterScopeFallible tid true s).1.connections tid = none := by
  unfold enterScopeFallible
  simp [hc, lookupKey_setKey_same]

/-- Concrete instantiation of `enter_open_failure_leaves_counter` at
thread `7` on a fresh `Database`. -/
theorem enter_open_failure_leaves_counter_witness :
    lookupKey initialDBState.connections 7 = none ∧
    ((enterScopeFallible 7 true initialDBState).2 = none ∧
     (enterScopeFallible 7 true initialDBState).1.openCount = initialDBState.openCount ∧
     lookupKey (enterScopeFallible 7 true initialDBState).1.nestedContexts 7 =
       some ((lookupKey initialDBState.nestedContexts 7).getD 0 + 1) ∧
     lookupKey (enterScopeFallible 7 true initialDBState).1.connections 7 = none) :=
  ⟨by decide, enter_open_failure_leaves_counter 7 initialDBState (by decide)⟩

/-- C3: the two backends disagree on a valid unexpired token.  On
`sampleStore`, the raw-SQL backend returns the whole joined row
`(holder_id, name, expires)` — contradicting its own annotation
`-> Tuple[str, str] | None` — while the mapped backend returns only
the pair `(holder_id, name)`, so the results are not identical. -/
theorem token_lookup_backends_disagree :
    get_user_id_from_token_sqlite sampleStore "tok1" 100 =
      (some [.vstr "id1", .vstr "alice", .vint 9999], sampleStore) ∧
    get_user_id_from_token_alchemy sampleStore "tok1" 100 =
      (some [.vstr "id1", .vstr "alice"], sampleStore) ∧
    (get_user_id_from_token_sqlite sampleStore "tok1" 100).1 ≠
      (get_user_id_from_token_alchemy sampleStore "tok1" 100).1 := by
  decide

/-- C5 counterexample: on a valid unexpired token the raw-SQL backend
does not return the pair `(user_id, user_name)` (it returns the full
three-column row), refuting the claim for that backend; the store is
left unchanged. -/
theorem token_valid_lookup_not_pair_counterexample :
    (get_user_id_from_token_sqlite sampleStore "tok1" 100).1 ≠
      some [.vstr "id1", .vstr "alice"] ∧
    (get_user_id_from_token_sqlite sampleStore "tok1" 100).2 = sampleStore := by
  decide

/-- C5 amended: for every stored-token state, a lookup on a token with
no joined row returns null and leaves the store unchanged; on a token
whose row has `expires < now` both backends delete that auth-token row
(it is no longer findable) and return null; on a token whose row has
`expires >= now` both backends leave the store unchanged and return the
holder data — the pair `(user_id, user_name)` from the mapped
backend, but the full row `(user_id, user_name, expires)` from the
raw-SQL backend. -/
theorem token_expiry_semantics (store : Store) (tok : String) (now : Int) :
    (tokenJoinLookup store tok = none →
        get_user_id_from_token_sqlite store tok now = (none, store) ∧
        get_user_id_from_token_alchemy store tok now = (none, store)) ∧
    (∀ hid uname exp, tokenJoinLookup store tok = some (hid, uname, exp) → exp < now →
        get_user_id_from_token_sqlite store tok now = (none, deleteToken store tok) ∧
        get_user_id_from_token_alchemy store tok now = (none, deleteToken store tok) ∧
        (deleteToken store tok).auth_tokens.find? (fun r => r.token == tok) = none) ∧
    (∀ hid uname exp, tokenJoinLookup store tok = some (hid, uname, exp) → now ≤ exp →
        get_user_id_from_token_sqlite store tok now =
          (some [.vstr hid, .vstr uname, .vint exp], store) ∧
        get_user_id_from_token_alchemy store tok now =
          (some [.vstr hid, .vstr uname], store)) := by
  refine ⟨?_, ?_, ?_⟩
  · intro hnone
    exact ⟨by simp [get_user_id_from_token_sqlite, hnone],
           by simp [get_user_id_from_token_alchemy, hnone]⟩
  · intro hid uname exp hsome hlt
    refine ⟨by simp [get_user_id_from_token_sqlite, hsome, hlt],
            by simp [get_user_id_from_token_alchemy, hsome, hlt], ?_⟩
    apply List.find?_eq_none.mpr
    intro x hx
    have hmem := (List.mem_filter.mp hx).2
    simpa using hmem
  · intro hid uname exp hsome hge
    have hnlt : ¬ exp < now := not_lt.mpr hge
    exact ⟨by simp [get_user_id_from_token_sqlite, hsome, hnlt],
           by simp [get_user_id_from_token_alchemy, hsome, hnlt]⟩

/-- Concrete instantiation of `token_expiry_semantics` in the expired
case: the token in `expiredStore` expired at `50`, looked up at `100`;
both backends return null and the row is deleted. -/
theorem token_expiry_semantics_witness :
    tokenJoinLookup expiredStore "tok1" = some ("id1", "alice", 50) ∧
    (50 : Int) < 100 ∧
    (get_user_id_from_token_sqlite expiredStore "tok1" 100 =
        (none, deleteToken expiredStore "tok1") ∧
     get_user_id_from_token_alchemy expiredStore "tok1" 100 =
        (none, deleteToken expiredStore "tok1") ∧
     (deleteToken expiredStore "tok1").auth_tokens.find?
        (fun r => r.token == "tok1") = none) :=
  ⟨by decide, by decide,
   (token_expiry_semantics expiredStore "tok1" 100).2.1 "id1" "alice" 50
     (by decide) (by decide)⟩

/-- C4 counterexample: with the `users` table missing, the insert fails
with an `OperationalError` — not a uniqueness violation — yet
`create_user` still returns `False` instead of propagating a database
error, because the `DBException` raised by `execute_query` is itself a
`DatabaseError` and is caught by `except DatabaseError`. -/
theorem create_user_swallows_other_errors_counterexample :
    insertUserEngine emptyStore false { id := "id1", name := "alice", password := "h1" } =
      .error (.operationalError ("no such table: users")) ∧
    create_user emptyStore false "id1" "alice" "h1" = .ok (false, emptyStore) :=
  ⟨rfl, rfl⟩

/-- C4 amended: `create_user` returns `true` on successful insertion
and returns `false` (without raising) on *any* database-level engine
failure — uniqueness violations included, but also every other
`DatabaseError`, since the uniform `DBException` wrapper is itself a
`DatabaseError` and is caught; only errors outside the
`DatabaseError` hierarchy propagate to the caller. -/
theorem create_user_error_absorption (store : Store) (r : Except PyExc Store) :
    (∀ st, r = .ok st → create_user_from_engine store r = .ok (true, st)) ∧
    (∀ e, r = .error e → e.isDatabaseError = true →
        create_user_from_engine store r = .ok (false, store)) ∧
    (∀ e, r = .error e → e.isDatabaseError = false →
        create_user_from_engine store r = .error e) := by
  refine ⟨?_, ?_, ?_⟩
  · intro st hr
    subst hr
    simp [create_user_from_engine, wrapEngineError]
  · intro e hr hdb
    subst hr
    simp [create_user_from_engine, wrapEngineError, hdb]
    rfl
  · intro e hr hdb
    subst hr
    simp [create_user_from_engine, wrapEngineError, hdb]

/-- Concrete instantiation of `create_user_error_absorption`: an
`InterfaceError` (not a `DatabaseError`) propagates out of
`create_user` unchanged. -/
theorem create_user_error_absorption_witness :
    ((.error (.interfaceError ("bad call")) : Except PyExc Store) =
      .error (.interfaceError ("bad call"))) ∧
    (PyExc.interfaceError ("bad call")).isDatabaseError = false ∧
    create_user_from_engine emptyStore (.error (.interfaceError ("bad call"))) =
      .error (.interfaceError ("bad call")) :=
  ⟨rfl, by decide,
   (create_user_error_absorption emptyStore (.error (.interfaceError ("bad call")))).2.2
     (.interfaceError ("bad call")) rfl (by decide)⟩

/-- C6: result shaping by format selector, for result sets whose rows
are nonempty tuples (as every `SELECT` produces).  With `"all"` and
zero rows the call returns the configured default (the empty sequence
if the default is unset); `"one"` returns the first row or the
default; `"unpack_all"` returns the first column of every row or the
default/empty sequence; `"unpack_one"` returns the first column of the
first row or the default; any selector outside the recognized set
fails with the invalid-configuration `ValueError`, which is not in the
caught exception tuple and therefore propagates. -/
theorem query_format_selectors (rows : List Row) (default : PyVal)
    (hwf : ∀ r, r ∈ rows → r ≠ []) :
    runFormat (.selector "all") default [] false =
      .ok (if default.isNone then .rowList [] else default) ∧
    runFormat (.selector "one") default rows false =
      .ok (match rows with | [] => default | r :: _ => .tup r) ∧
    runFormat (.selector "unpack_all") default rows false =
      .ok (if rows.isEmpty then (if default.isNone then .scalList [] else default)
           else .scalList (rows.map firstCol)) ∧
    runFormat (.selector "unpack_one") default rows false =
      .ok (match rows with | [] => default | r :: _ => .scal (firstCol r)) ∧
    (∀ sel, sel ≠ "all" → sel ≠ "one" → sel ≠ "unpack_all" → sel ≠ "unpack_one" →
        runFormat (.selector sel) default rows false =
          .error (.valueError ("Formatting function for query is invalid."))) := by
  refine ⟨?_, ?_, ?_, ?_, ?_⟩
  · simp [runFormat, PyVal.truthy]
  · cases rows with
    | nil => simp [runFormat, PyVal.truthy]
    | cons r rest =>
        have hr : r ≠ [] := hwf r (by simp)
        simp [runFormat, PyVal.truthy, hr]
  · cases rows with
    | nil => simp [runFormat, PyVal.truthy]
    | cons r rest => simp [runFormat, PyVal.truthy]
  · cases rows with
    | nil => simp [runFormat]
    | cons r rest => simp [runFormat]
  · intro sel h1 h2 h3 h4
    simp [runFormat, h1, h2, h3, h4]

/-- Concrete instantiation of `query_format_selectors` on a two-row
result set with an unset default. -/
theorem query_format_selectors_witness :
    (∀ r, r ∈ [[PyScalar.vint 1, PyScalar.vstr "a"], [PyScalar.vint 2, PyScalar.vstr "b"]] → r ≠ []) ∧
    (runFormat (.selector "all") (.scal .vnone) [] false =
      .ok (if (PyVal.scal .vnone).isNone then .rowList [] else .scal .vnone) ∧
    runFormat (.selector "one") (.scal .vnone) [[PyScalar.vint 1, PyScalar.vstr "a"], [PyScalar.vint 2, PyScalar.vstr "b"]] false =
      .ok (match [[PyScalar.vint 1, PyScalar.vstr "a"], [PyScalar.vint 2, PyScalar.vstr "b"]] with
           | [] => PyVal.scal .vnone | r :: _ => .tup r) ∧
    runFormat (.selector "unpack_all") (.scal .vnone) [[PyScalar.vint 1, PyScalar.vstr "a"], [PyScalar.vint 2, PyScalar.vstr "b"]] false =
      .ok (if ([[PyScalar.vint 1, PyScalar.vstr "a"], [PyScalar.vint 2, PyScalar.vstr "b"]] : List Row).isEmpty
           then (if (PyVal.scal .vnone).isNone then .scalList [] else .scal .vnone)
           else .scalList ([[PyScalar.vint 1, PyScalar.vstr "a"], [PyScalar.vint 2, PyScalar.vstr "b"]].map firstCol)) ∧
    runFormat (.selector "unpack_one") (.scal .vnone) [[PyScalar.vint 1, PyScalar.vstr "a"], [PyScalar.vint 2, PyScalar.vstr "b"]] false =
      .ok (match [[PyScalar.vint 1, PyScalar.vstr "a"], [PyScalar.vint 2, PyScalar.vstr "b"]] with
           | [] => PyVal.scal .vnone | r :: _ => .scal (firstCol r)) ∧
    (∀ sel, sel ≠ "all" → sel ≠ "one" → sel ≠ "unpack_all" → sel ≠ "unpack_one" →
        runFormat (.selector sel) (.scal .vnone) [[PyScalar.vint 1, PyScalar.vstr "a"], [PyScalar.vint 2, PyScalar.vstr "b"]] false =
          .error (.valueError ("Formatting function for query is invalid.")))) :=
  ⟨by decide,
   query_format_selectors [[PyScalar.vint 1, PyScalar.vstr "a"], [PyScalar.vint 2, PyScalar.vstr "b"]]
     (.scal .vnone) (by decide)⟩

/-- C7: parameter collection coerces every `list`/`tuple` parameter to
a tuple and leaves scalars alone; the Query is marked `execute_many`
exactly when at least one parameter was given and every collected
parameter is a tuple, in which case it executes once per parameter
row; otherwise the collected parameters form a single flat tuple
executed once.  In particular `[("a",1), ("b",2)]` yields a two-row
batch and `["a", 1]` yields a single execution with two positional
values. -/
theorem query_batch_detection :
    (∀ xs, coerceParam (.plist xs) = .ptuple xs ∧ coerceParam (.ptuple xs) = .ptuple xs) ∧
    (∀ v, coerceParam (.scalar v) = .scalar v) ∧
    (∀ q params, (mkQuery q params).execute_many =
        (!(collectParams params).isEmpty && (collectParams params).all isTupleParam)) ∧
    (∀ q params, (mkQuery q params).params = collectParams params) ∧
    (∀ q params, (mkQuery q params).execute_many = false →
        executionCount (mkQuery q params) = 1) ∧
    (∀ q params, (mkQuery q params).execute_many = true →
        executionCount (mkQuery q params) = params.length) ∧
    (mkQuery "q" [.ptuple [.vstr "a", .vint 1], .ptuple [.vstr "b", .vint 2]]).execute_many = true ∧
    executionCount (mkQuery "q" [.ptuple [.vstr "a", .vint 1], .ptuple [.vstr "b", .vint 2]]) = 2 ∧
    (mkQuery "q" [.scalar (.vstr "a"), .scalar (.vint 1)]).execute_many = false ∧
    (mkQuery "q" [.scalar (.vstr "a"), .scalar (.vint 1)]).params =
      [.scalar (.vstr "a"), .scalar (.vint 1)] ∧
    executionCount (mkQuery "q" [.scalar (.vstr "a"), .scalar (.vint 1)]) = 1 := by
  refine ⟨fun xs => ⟨rfl, rfl⟩, fun v => rfl, fun q params => rfl, fun q params => rfl,
          ?_, ?_, by decide, by decide, by decide, by decide, by decide⟩
  · intro q params h
    unfold executionCount
    rw [h]
    simp
  · intro q params h
    unfold executionCount
    rw [h]
    simp [mkQuery, collectParams]

/-- Concrete instantiation of `query_batch_detection`: a Query built
with a single scalar parameter is not a batch and executes once. -/
theorem query_batch_detection_witness :
    (mkQuery "z" [.scalar (.vint 5)]).execute_many = false ∧
    executionCount (mkQuery "z" [.scalar (.vint 5)]) = 1 :=
  ⟨by decide, query_batch_detection.2.2.2.2.1 "z" [.scalar (.vint 5)] (by decide)⟩

/-- C8: `password_matches` returns `true` exactly when a user with the
given name is found and the stored hash equals the supplied one; it
returns `false` both when no such user exists and when the hash
differs, and in those two situations the returned values are equal —
the caller cannot distinguish "no such user" from "wrong password"
from the observable output. -/
theorem password_matches_nondisclosure :
    (∀ store uname pw, password_matches store uname pw = true ↔
        ∃ u, store.users.find? (fun x => x.name == uname) = some u ∧ u.password = pw) ∧
    (∀ s1 s2 n1 n2 p1 p2,
        s1.users.find? (fun u => u.name == n1) = none →
        (∀ u, s2.users.find? (fun x => x.name == n2) = some u → u.password ≠ p2) →
        password_matches s1 n1 p1 = false ∧
        password_matches s2 n2 p2 = false ∧
        password_matches s1 n1 p1 = password_matches s2 n2 p2) := by
  constructor
  · intro store uname pw
    cases hf : store.users.find? (fun x => x.name == uname) with
    | none => simp [password_matches, hf]
    | some u => simp [password_matches, hf, beq_iff_eq]
  · intro s1 s2 n1 n2 p1 p2 h1 h2
    have e1 : password_matches s1 n1 p1 = false := by simp [password_matches, h1]
    have e2 : password_matches s2 n2 p2 = false := by
      cases hf : s2.users.find? (fun x => x.name == n2) with
      | none => simp [password_matches, hf]
      | some u =>
          have hne := h2 u hf
          simp [password_matches, hf, hne]
    exact ⟨e1, e2, by rw [e1, e2]⟩

/-- Concrete instantiation of `password_matches_nondisclosure`:
a lookup for a nonexistent user and a wrong-password lookup for
`alice` both return `false`, indistinguishably. -/
theorem password_matches_nondisclosure_witness :
    emptyStore.users.find? (fun u => u.name == "nonexistent") = none ∧
    (∀ u, sampleStore.users.find? (fun x => x.name == "alice") = some u →
        u.password ≠ "wrong") ∧
    (password_matches emptyStore "nonexistent" "anything" = false ∧
     password_matches sampleStore "alice" "wrong" = false ∧
     password_matches emptyStore "nonexistent" "anything" =
       password_matches sampleStore "alice" "wrong") := by
  have hu : ∀ u, sampleStore.users.find? (fun x => x.name == "alice") = some u →
      u.password ≠ "wrong" := by
    intro u hu2
    have heq := Option.some.inj hu2
    rw [← heq]
    decide
  exact ⟨rfl, hu,
    password_matches_nondisclosure.2 emptyStore sampleStore "nonexistent" "alice"
      "anything" "wrong" rfl hu⟩

/-- C10: calling `execute_query` from a thread that holds no cached
connection raises `DBException("No database connection is active.")`
without opening a connection and with the connection bookkeeping and
the store left unchanged, for every query, parameter list and engine
behavior. -/
theorem execute_query_requires_connection (tid : Nat) (s : DBState) (store : Store)
    (q : String) (params : List PyParam)
    (engine : Store → String → List PyParam → Bool → Except PyExc (Store × List Row))
    (h : lookupKey s.connections tid = none) :
    execute_query tid s store q params engine =
      (.error (.dbException ("No database connection is active.")), s, store) := by
  simp [execute_query, h]

/-- Concrete instantiation of `execute_query_requires_connection` on a
fresh `Database` from thread `7`, with an engine that would succeed. -/
theorem execute_query_requires_connection_witness :
    lookupKey initialDBState.connections 7 = none ∧
    execute_query 7 initialDBState emptyStore "SELECT 1" []
        (fun st _ _ _ => .ok (st, [])) =
      (.error (.dbException ("No database connection is active.")),
       initialDBState, emptyStore) :=
  ⟨rfl, execute_query_requires_connection 7 initialDBState emptyStore "SELECT 1" []
      (fun st _ _ _ => .ok (st, [])) rfl⟩

theorem lookupKey_setKey_other (m : List (Nat × Nat)) (k1 k2 v : Nat)
    (h : k1 ≠ k2) : lookupKey (setKey m k2 v) k1 = lookupKey m k1 := by
  induction m with
  | nil => simp [setKey, lookupKey, Ne.symm h]
  | cons hd tl ih =>
      obtain ⟨ka, va⟩ := hd
      by_cases hk : ka = k2
      · subst hk
        simp [setKey, lookupKey, Ne.symm h]
      · simp [setKey, lookupKey, hk, ih]

theorem lookupKey_delKey_other (m : List (Nat × Nat)) (k1 k2 : Nat)
    (h : k1 ≠ k2) : lookupKey (delKey m k2) k1 = lookupKey m k1 := by
  induction m with
  | nil => simp [delKey]
  | cons hd tl ih =>
      obtain ⟨ka, va⟩ := hd
      by_cases hk : ka = k2
      · subst hk
        simp [delKey, lookupKey, Ne.symm h, ih]
      · simp [delKey, lookupKey, hk, ih]

/-- Cross-context independence of the bookkeeping maps (supporting
fact for the concurrency discussion): a scope entry or exit performed
by thread `t2` never changes the connection entry or depth entry of a
different thread `t1`, and the connection it closes (if any) is the
connection of `t2`, never the one cached for `t1`. -/
theorem scope_cross_thread_independence (t1 t2 : Nat) (hne : t1 ≠ t2) (s : DBState) :
    lookupKey (enterScope t2 s).1.connections t1 = lookupKey s.connections t1 ∧
    lookupKey (enterScope t2 s).1.nestedContexts t1 = lookupKey s.nestedContexts t1 ∧
    (∀ s2, exitScope t2 s = some s2 →
        lookupKey s2.connections t1 = lookupKey s.connections t1 ∧
        lookupKey s2.nestedContexts t1 = lookupKey s.nestedContexts t1 ∧
        (∀ c1 c2, lookupKey s.connections t1 = some c1 →
            s2.closedConns = c2 :: s.closedConns →
            lookupKey s.connections t2 = some c2)) := by
  refine ⟨?_, ?_, ?_⟩
  · unfold enterScope
    cases hc : lookupKey s.connections t2 <;>
      simp [hc, lookupKey_setKey_other _ _ _ _ hne]
  · unfold enterScope
    cases hc : lookupKey s.connections t2 <;>
      simp [hc, lookupKey_setKey_other _ _ _ _ hne]
  · intro s2 hs2
    unfold exitScope at hs2
    by_cases hz : (lookupKey s.nestedContexts t2).getD 1 - 1 = 0
    · rw [if_pos hz] at hs2
      revert hs2
      cases hc : lookupKey s.connections t2 with
      | none =>
          intro hs2
          simp at hs2
      | some c =>
          intro hs2
          obtain rfl : _ = s2 := Option.some.inj hs2
          refine ⟨?_, ?_, ?_⟩
          · simp [lookupKey_delKey_other _ _ _ hne]
          · simp [lookupKey_delKey_other _ _ _ hne,
                  lookupKey_setKey_other _ _ _ _ hne]
          · intro c1 c2 _ hclosed
            simp only [List.cons.injEq] at hclosed
            simp [hc, hclosed.1]
    · rw [if_neg hz] at hs2
      obtain rfl : _ = s2 := Option.some.inj hs2
      refine ⟨rfl, by simp [lookupKey_setKey_other _ _ _ _ hne], ?_⟩
      intro c1 c2 _ hclosed
      have hlen := congrArg List.length hclosed
      simp at hlen

end MhoogeFlask
